import Mathlib

/-!
Shallow embedding of the `user-buy-list` purchase pipeline:

* `services/customer-facing/index.ts` — the producer: `POST /buy` (validate,
  publish to the stream), `GET /getAllUserBuys/:userid` (delegate to the
  consumer with a 5s timeout), `GET /ready` (readiness flag).
* `services/customer-management/index.ts` and the direct-write variant of the
  same service — the consumer: the subscription handler (`eachMessage`),
  `GET /purchases/:userid`, `GET /purchases`, `POST /purchases` (direct write),
  `GET /health`.

JavaScript values arriving in JSON request bodies are modelled by `Json`;
JavaScript numbers by `JsNum` (a rational or NaN — the only numeric operations
the code performs are `Number(...)` coercion and comparison with `0`, for which
this model is exact).  Instants (JS `Date`) are modelled as integer
milliseconds since the epoch, which is exactly the information content of a JS
`Date`.  The ISO-8601 textual rendering produced by `Date.prototype.toISOString`
is abstracted by an injective textual encoding of the instant (`isoOfTime`),
and `new Date(string)` by its partial inverse (`strToDate`); no code in the
repository inspects the text of a timestamp.
-/

/-- A JavaScript number: NaN or a rational.  (The code performs no arithmetic
beyond `Number(...)` coercion and order comparison with zero, so rationals are
an exact model of the doubles that actually occur.) -/
inductive JsNum where
  | nan
  | num (q : ℚ)

/-- A JSON value, as delivered by `express.json()` / `JSON.parse`.  JSON has no
`NaN` and no `undefined`; an absent object field is modelled by `Option.none`
at the use site. -/
inductive Json where
  | str (s : String)
  | num (q : ℚ)
  | bool (b : Bool)
  | null
  | arr (elems : List Json)
  | obj (fields : List (String × Json))

/-- JavaScript truthiness of a possibly-absent value, as used by the
`!username || !userid` checks: `undefined`, `null`, `false`, `0`, and `""` are
falsy; objects and arrays are truthy. -/
def truthy : Option Json → Bool
  | none => false
  | some (.str s) => s != ""
  | some (.num q) => q != 0
  | some (.bool b) => b
  | some .null => false
  | some (.arr _) => true
  | some (.obj _) => true

/-- The decimal digit `d` (`d < 10`) as a character. -/
def digitChar (d : Nat) : Char := Char.ofNat (48 + d)

/-- Decode a decimal digit character; `none` for anything else. -/
def charDigit (c : Char) : Option Nat :=
  if 48 ≤ c.toNat ∧ c.toNat ≤ 57 then some (c.toNat - 48) else none

/-- Decimal digit characters of `n`, least significant first, with enough
`fuel` (any `fuel ≥ n`); structural recursion so that it evaluates in the
kernel. -/
def natCharsAux : Nat → Nat → List Char
  | 0, _ => []
  | _ + 1, 0 => []
  | fuel + 1, n + 1 => digitChar ((n + 1) % 10) :: natCharsAux fuel ((n + 1) / 10)

/-- Decimal digit characters of a natural number, most significant first. -/
def natChars (n : Nat) : List Char :=
  if n = 0 then ['0'] else (natCharsAux n n).reverse

/-- Decode a list of digit characters, `none` if any is not a digit. -/
def digitsOfChars : List Char → Option (List Nat)
  | [] => some []
  | c :: cs => do
      let d ← charDigit c
      let ds ← digitsOfChars cs
      pure (d :: ds)

/-- Parse a non-empty all-digit character list as a natural number
(most significant digit first). -/
def numCharsToNat? (cs : List Char) : Option Nat :=
  if cs.isEmpty then none
  else (digitsOfChars cs).map fun ds => Nat.ofDigits 10 ds.reverse

/-- JavaScript whitespace characters stripped by `Number(string)`. -/
def isWsChar (c : Char) : Bool := c == ' ' || c == '\t' || c == '\n' || c == '\r'

/-- Strip leading and trailing whitespace from a character list. -/
def trimChars (cs : List Char) : List Char :=
  ((cs.dropWhile isWsChar).reverse.dropWhile isWsChar).reverse

/-- Parse an unsigned decimal numeral, optionally with a fractional part
(`"12"`, `"12.34"`).  This models the common fragment of the JavaScript
string-number grammar; exotic forms (exponents, hex, a bare leading or
trailing dot) are out of the model and yield `none`. -/
def parseDecCore (cs : List Char) : Option ℚ :=
  let intPart := cs.takeWhile (fun c => !(c == '.'))
  let rest := cs.dropWhile (fun c => !(c == '.'))
  match rest with
  | [] => (numCharsToNat? intPart).map fun n => (n : ℚ)
  | _ :: frac =>
    if frac.any (fun c => c == '.') then none
    else do
      let n ← numCharsToNat? intPart
      let f ← numCharsToNat? frac
      pure ((n : ℚ) + (f : ℚ) / ((10 : ℚ) ^ frac.length))

/-- Parse a decimal numeral with an optional leading minus sign. -/
def parseDec : List Char → Option ℚ
  | '-' :: rest => (parseDecCore rest).map Neg.neg
  | cs => parseDecCore cs

/-- `Number(s)` for a string `s`: whitespace-only strings coerce to `0`,
decimal numerals to their value, anything else to NaN. -/
def strToNum (s : String) : JsNum :=
  let t := trimChars s.data
  if t.isEmpty then .num 0
  else
    match parseDec t with
    | some q => .num q
    | none => .nan

/-- `Number(v)` coercion of a possibly-absent JSON value, as applied to the
`price` field (`const parsedPrice = Number(price)`).  `Number(undefined)` is
NaN, `Number(null)` is `0`, booleans coerce to `0`/`1`.  Arrays and objects go
through `ToPrimitive`; that path is abstracted as NaN (no claim touches it). -/
def toNumber : Option Json → JsNum
  | none => .nan
  | some (.str s) => strToNum s
  | some (.num q) => .num q
  | some (.bool b) => .num (if b then 1 else 0)
  | some .null => .num 0
  | some (.arr _) => .nan
  | some (.obj _) => .nan

/-- An instant: integer milliseconds since the Unix epoch (the exact
information content of a JavaScript `Date`). -/
abbrev Time := Int

/-- The textual rendering of an instant written by
`new Date(t).toISOString()`.  The concrete ISO-8601 calendar text is
abstracted by an injective decimal encoding of the instant; nothing in the
repository inspects this text. -/
def isoOfTime (t : Time) : String :=
  ⟨if t < 0 then '-' :: natChars t.natAbs else natChars t.toNat⟩

/-- Decode the character list of a date string to an instant. -/
def dateCharsToInt? : List Char → Option Int
  | [] => none
  | c :: rest =>
    if c = '-' then (numCharsToNat? rest).map fun n => -(n : Int)
    else (numCharsToNat? (c :: rest)).map fun n => (n : Int)

/-- `new Date(s)` for a string `s`: parseable date strings (modelled as the
textual instants the system itself writes) yield their instant; anything else
is an Invalid Date, modelled as `none`. -/
def strToDate (s : String) : Option Time := dateCharsToInt? s.data

/-- `new Date(v)` on a truthy JSON value `v`, as in the direct-write
`timestamp ? new Date(timestamp) : new Date()`.  Numbers are epoch
milliseconds (fractional milliseconds truncate), strings parse as date
strings, `true` coerces to `1`; arrays and objects are abstracted as Invalid
Date.  Invalid Dates are `none` (they make the subsequent store insert
throw). -/
def jsDate : Json → Option Time
  | .num q => some (Rat.floor q)
  | .str s => strToDate s
  | .bool b => some (if b then 1 else 0)
  | .null => some 0
  | .arr _ => none
  | .obj _ => none

/-- A purchase document as persisted by the consumer (mongoose schema:
`username`/`userid` strings, `price` number, `timestamp` date, all
required). -/
structure StoredPurchase where
  username : String
  userid : String
  price : ℚ
  timestamp : Time
deriving DecidableEq, Repr

/-- Mongoose cast to `String` (schema field `username` / `userid`): strings
pass through; numbers are cast to their decimal text (formatting abstracted
by `toString`); other values fail the cast. -/
def castString : Json → Option String
  | .str s => some s
  | .num q => some (toString q)
  | _ => none

/-- Mongoose cast to `Number` (schema field `price`): numbers pass through;
numeric strings are cast (empty strings fail); other values fail. -/
def castNumber : Json → Option ℚ
  | .num q => some q
  | .str s => parseDec (trimChars s.data)
  | _ => none

/-- Mongoose cast to `Date` (schema field `timestamp`): date strings and
epoch-millisecond numbers are cast; other values fail. -/
def castDate : Json → Option Time
  | .str s => strToDate s
  | .num q => some (Rat.floor q)
  | _ => none

/-- Look up key `k` in a JSON object's field list.  JavaScript object literals
keep the last binding of a duplicated key, hence the reversed search. -/
def jlookup (fields : List (String × Json)) (k : String) : Option Json :=
  (fields.reverse.find? fun p => p.1 == k).map fun p => p.2

/-- `new Purchase(obj)` followed by `save()`-time schema validation: the value
must be an object whose `username`, `userid`, `price`, `timestamp` fields are
present and castable; otherwise the save throws (modelled as `none`). -/
def castPurchase : Json → Option StoredPurchase
  | .obj fields => do
      let un ← (jlookup fields "username").bind castString
      let uid ← (jlookup fields "userid").bind castString
      let pr ← (jlookup fields "price").bind castNumber
      let ts ← (jlookup fields "timestamp").bind castDate
      pure ⟨un, uid, pr, ts⟩
  | _ => none

/-- A parsed JSON request body, restricted to the fields the handlers
destructure (`const { username, userid, price, timestamp } = req.body`);
`none` models an absent field (`undefined`). -/
structure ReqBody where
  username : Option Json
  userid : Option Json
  price : Option Json
  timestamp : Option Json

/-- The JSON object the producer publishes for an accepted purchase:
`{ username, userid, price: parsedPrice, timestamp: new Date().toISOString() }`. -/
def purchaseWire (username userid : Json) (price : ℚ) (now : Time) : Json :=
  .obj [("username", username), ("userid", userid),
        ("price", .num price), ("timestamp", .str (isoOfTime now))]

/-- A message appended to the purchases topic: `key: userid` (the raw body
value, used for partitioning), `value` the serialized purchase.  The byte
serialization (`JSON.stringify`) is carried at the JSON level; the stream and
`JSON.parse` round-trip it. -/
structure KafkaMsg where
  key : Json
  value : Json

/-- Response of `POST /buy`. -/
inductive BuyResult where
  | badRequest (msg : String)
  | serverError
  | created (purchase : Json)

/-- HTTP status of a `POST /buy` response
(`res.status(400)` / `res.status(500)` / `res.status(201)`). -/
def BuyResult.status : BuyResult → Nat
  | .badRequest _ => 400
  | .serverError => 500
  | .created _ => 201

/-- The producer's `POST /buy` handler.  `now` is the server clock at the
request (`new Date()`); `sendOk` is whether `producer.send` succeeds (a
publish failure throws and is caught by the handler's `catch`, returning
500).  Returns the HTTP response and the list of messages appended to the
stream (empty or a singleton). -/
def buyHandler (now : Time) (sendOk : Bool) (b : ReqBody) :
    BuyResult × List KafkaMsg :=
  if !(truthy b.username) || !(truthy b.userid) || b.price.isNone then
    (.badRequest "Missing required fields: username, userid, price", [])
  else
    match toNumber b.price with
    | .nan => (.badRequest "Price must be a positive number", [])
    | .num q =>
      if q ≤ 0 then (.badRequest "Price must be a positive number", [])
      else
        let purchase := purchaseWire (b.username.getD .null) (b.userid.getD .null) q now
        if sendOk then (.created purchase, [⟨b.userid.getD .null, purchase⟩])
        else (.serverError, [])

/-- The exact rejection condition shared by the two validation blocks
(`POST /buy` and the direct-write `POST /purchases`):
`!username || !userid || price === undefined` or
`Number.isNaN(parsedPrice) || parsedPrice <= 0`. -/
def rejectsSubmission (b : ReqBody) : Bool :=
  !(truthy b.username) || !(truthy b.userid) || b.price.isNone ||
    (match toNumber b.price with
     | .nan => true
     | .num q => decide (q ≤ 0))

/-- The value of a message delivered to the subscription handler.  `absent`
models a null `message.value` (the handler returns early); `junk` models bytes
on which `JSON.parse` throws; `json` models bytes that parse to the given JSON
value (in particular, the serialization of a published `purchaseWire` object,
which the stream and `JSON.parse` round-trip). -/
inductive MsgValue where
  | absent
  | junk (bytes : String)
  | json (j : Json)

/-- How the subscription handler finished on one message.  Every constructor
is a normal return: the handler never throws, so `eachMessage` being a total
function is the statement that the offset always advances and the process
never crashes. -/
inductive MsgOutcome where
  | skippedNull
  | stored
  | dropped
deriving DecidableEq, Repr

/-- Result of running the subscription handler on one message: the store
contents afterwards, and how the message was disposed of. -/
structure ConsumeResult where
  store : List StoredPurchase
  outcome : MsgOutcome
deriving DecidableEq, Repr

/-- The consumer's `eachMessage` subscription handler.  `saveOk` is whether
the store insert (`newPurchase.save()`) succeeds; a throw from `JSON.parse`,
from schema validation, or from the insert is caught by the handler's single
`catch`, which logs and returns normally (the message is dropped). -/
def eachMessage (saveOk : Bool) (v : MsgValue) (store : List StoredPurchase) :
    ConsumeResult :=
  match v with
  | .absent => ⟨store, .skippedNull⟩
  | .junk _ => ⟨store, .dropped⟩
  | .json j =>
    match castPurchase j with
    | none => ⟨store, .dropped⟩
    | some p => if saveOk then ⟨store ++ [p], .stored⟩ else ⟨store, .dropped⟩

/-- Response of the direct-write `POST /purchases`. -/
inductive DirectWriteResult where
  | badRequest (msg : String)
  | serverError
  | created (doc : StoredPurchase)
deriving DecidableEq, Repr

/-- HTTP status of a direct-write response. -/
def DirectWriteResult.status : DirectWriteResult → Nat
  | .badRequest _ => 400
  | .serverError => 500
  | .created _ => 201

/-- The consumer's direct-write `POST /purchases` handler (the variant of the
service that exposes it).  Validation is the same code as `/buy`; the document
is built with `timestamp: timestamp ? new Date(timestamp) : new Date()` and
saved; a failing mongoose cast (e.g. an Invalid Date) makes `save()` throw,
which the `catch` maps to 500.  Returns the response and the store contents
afterwards. -/
def purchasesPost (now : Time) (b : ReqBody) (store : List StoredPurchase) :
    DirectWriteResult × List StoredPurchase :=
  if !(truthy b.username) || !(truthy b.userid) || b.price.isNone then
    (.badRequest "Missing required fields: username, userid, price", store)
  else
    match toNumber b.price with
    | .nan => (.badRequest "Price must be a positive number", store)
    | .num q =>
      if q ≤ 0 then (.badRequest "Price must be a positive number", store)
      else
        match (b.username.getD .null) |> castString,
              (b.userid.getD .null) |> castString,
              (if truthy b.timestamp then (b.timestamp.getD .null) |> jsDate
               else some now) with
        | some un, some uid, some ts =>
          (.created ⟨un, uid, q, ts⟩, store ++ [⟨un, uid, q, ts⟩])
        | _, _, _ => (.serverError, store)

/-- Descending sort by `timestamp` — `.sort({ timestamp: -1 })`.  `mergeSort`
is stable, matching a deterministic reading of the store's sort. -/
def sortByTimestampDesc (l : List StoredPurchase) : List StoredPurchase :=
  l.mergeSort fun a b => decide (b.timestamp ≤ a.timestamp)

/-- The query behind `GET /purchases/:userid`:
`Purchase.find({ userid }).sort({ timestamp: -1 })`. -/
def getPurchasesByUser (uid : String) (store : List StoredPurchase) :
    List StoredPurchase :=
  sortByTimestampDesc (store.filter fun d => d.userid == uid)

/-- The query behind `GET /purchases`:
`Purchase.find({}).sort({ timestamp: -1 }).limit(500)`. -/
def getAllPurchases (store : List StoredPurchase) : List StoredPurchase :=
  (sortByTimestampDesc store).take 500

/-- Response of a consumer read route. -/
inductive ReadResult where
  | ok (body : List StoredPurchase)
  | storeError
deriving DecidableEq, Repr

/-- HTTP status of a read response: `res.json(...)` is 200, the `catch` is
`res.status(500)`. -/
def ReadResult.status : ReadResult → Nat
  | .ok _ => 200
  | .storeError => 500

/-- The `GET /purchases/:userid` route: `storeOk` is whether the awaited
store query succeeds (a throw is caught and mapped to 500). -/
def purchasesByUserRoute (storeOk : Bool) (uid : String)
    (store : List StoredPurchase) : ReadResult :=
  if storeOk then .ok (getPurchasesByUser uid store) else .storeError

/-- The `GET /purchases` route. -/
def purchasesAllRoute (storeOk : Bool) (store : List StoredPurchase) : ReadResult :=
  if storeOk then .ok (getAllPurchases store) else .storeError

/-- The outgoing HTTP call made by the producer's `GET /getAllUserBuys/:userid`:
`axios.get(CUSTOMER_MANAGEMENT_URL + "/purchases/" + userid, { timeout: 5000 })`. -/
structure HttpGetCall where
  path : String
  timeoutMs : Nat
deriving DecidableEq, Repr

/-- The downstream call the producer issues for a given `userid`. -/
def getAllUserBuysCall (uid : String) : HttpGetCall :=
  ⟨"/purchases/" ++ uid, 5000⟩

/-- Response of `GET /getAllUserBuys/:userid`. -/
inductive ProxyResult where
  | ok (body : List StoredPurchase)
  | downstreamError
deriving DecidableEq, Repr

/-- HTTP status of a proxy response. -/
def ProxyResult.status : ProxyResult → Nat
  | .ok _ => 200
  | .downstreamError => 500

/-- The producer's `GET /getAllUserBuys/:userid` handler: on a resolved
downstream call the body is forwarded unchanged (`res.json(response.data)`);
a timeout, network error or non-2xx downstream status makes `axios` throw,
caught and mapped to 500. -/
def getAllUserBuysRoute (downstream : Except Unit (List StoredPurchase)) :
    ProxyResult :=
  match downstream with
  | .ok l => .ok l
  | .error _ => .downstreamError

/-- Fixed reconnection backoff: `setTimeout(connect…, 5000)`. -/
def retryDelayMs : Nat := 5000

/-- Producer process state observable by its health surface: the
`kafkaReady` module-level flag. -/
structure ProducerState where
  kafkaReady : Bool
deriving DecidableEq, Repr

/-- Events acting on the producer's connection state: `connectOk` /
`connectFail` are the two exits of `producer.connect()` inside
`connectKafka`; `connectionLost` is the broker dropping an established
connection — an event for which the code registers no listener. -/
inductive ProducerEvent where
  | connectOk
  | connectFail
  | connectionLost
deriving DecidableEq, Repr

/-- One step of the producer's connection management (`connectKafka`): the new
state, plus `some d` when a reconnect is scheduled `d` ms later
(`setTimeout(connectKafka, 5000)`).  A lost connection has no handler in the
code, so it leaves the state untouched.  Every event yields a next state:
the process never exits. -/
def producerStep (s : ProducerState) : ProducerEvent → ProducerState × Option Nat
  | .connectOk => (⟨true⟩, none)
  | .connectFail => (⟨false⟩, some retryDelayMs)
  | .connectionLost => (s, none)

/-- Initial producer state: `let kafkaReady = false`. -/
def producerInit : ProducerState := ⟨false⟩

/-- Run the producer state machine over a sequence of events. -/
def producerRun (s : ProducerState) : List ProducerEvent → ProducerState
  | [] => s
  | e :: es => producerRun (producerStep s e).1 es

/-- HTTP status of `GET /ready`: 200 when `kafkaReady`, else 503. -/
def readyEndpoint (s : ProducerState) : Nat :=
  if s.kafkaReady then 200 else 503

/-- Modelled from the spec (refinement comparison only): whether the stream
connection is currently established, per the event history — true exactly
when the most recent connection event is a successful connect not followed by
a failure or loss. -/
def streamEstablished (events : List ProducerEvent) : Bool :=
  events.foldl (fun _ e => match e with | .connectOk => true | _ => false) false

/-- Consumer process state observable by its health surface: the
`kafkaReady` and `mongoReady` module-level flags. -/
structure ConsumerState where
  kafkaReady : Bool
  mongoReady : Bool
deriving DecidableEq, Repr

/-- Events acting on the consumer's connection state: the exits of
`mongoose.connect` (in `connectMongo`) and of the subscription startup (in
`startKafkaConsumer`), plus an unobserved loss of either established
dependency. -/
inductive ConsumerEvent where
  | mongoOk
  | mongoFail
  | kafkaOk
  | kafkaFail
  | connectionLost
deriving DecidableEq, Repr

/-- One step of the consumer's connection management; as in the producer, a
failed connect schedules a 5s retry and a lost connection has no handler. -/
def consumerStep (s : ConsumerState) : ConsumerEvent → ConsumerState × Option Nat
  | .mongoOk => ({ s with mongoReady := true }, none)
  | .mongoFail => ({ s with mongoReady := false }, some retryDelayMs)
  | .kafkaOk => ({ s with kafkaReady := true }, none)
  | .kafkaFail => ({ s with kafkaReady := false }, some retryDelayMs)
  | .connectionLost => (s, none)

/-- Initial consumer state: both flags false. -/
def consumerInit : ConsumerState := ⟨false, false⟩

/-- Run the consumer state machine over a sequence of events. -/
def consumerRun (s : ConsumerState) : List ConsumerEvent → ConsumerState
  | [] => s
  | e :: es => consumerRun (consumerStep s e).1 es

/-- The readiness the consumer's `GET /health` reports: the response is
`{ status: 'ok', kafkaReady, mongoReady }`, and the service counts as ready
exactly when both `*Ready` fields are true. -/
def consumerReadiness (s : ConsumerState) : Bool :=
  s.kafkaReady && s.mongoReady

theorem charDigit_digitChar {d : Nat} (h : d < 10) : charDigit (digitChar d) = some d := by
  interval_cases d <;> decide

theorem natCharsAux_eq_digits : ∀ fuel n, n ≤ fuel →
    natCharsAux fuel n = (Nat.digits 10 n).map digitChar := by
  intro fuel
  induction fuel with
  | zero =>
    intro n hn
    have hz : n = 0 := by omega
    subst hz
    simp [natCharsAux]
  | succ fuel ih =>
    intro n hn
    cases n with
    | zero => simp [natCharsAux]
    | succ m =>
      rw [natCharsAux, Nat.digits_def' (by norm_num : (1:ℕ) < 10) (Nat.succ_pos m),
        List.map_cons]
      congr 1
      exact ih ((m + 1) / 10)
        (by have := Nat.div_lt_self (Nat.succ_pos m) (by norm_num : 1 < 10); omega)

theorem digitsOfChars_map_digitChar :
    ∀ ds : List Nat, (∀ d ∈ ds, d < 10) →
      digitsOfChars (ds.map digitChar) = some ds := by
  intro ds
  induction ds with
  | nil => intro _; rfl
  | cons d ds ih =>
    intro h
    have hd : d < 10 := h d (List.mem_cons_self d ds)
    have hds := ih fun x hx => h x (List.mem_cons_of_mem d hx)
    simp [digitsOfChars, charDigit_digitChar hd, hds]

theorem numChars_natChars (n : Nat) : numCharsToNat? (natChars n) = some n := by
  by_cases hz : n = 0
  · subst hz; decide
  · have hdig : natChars n = ((Nat.digits 10 n).reverse).map digitChar := by
      rw [natChars, if_neg hz, natCharsAux_eq_digits n n le_rfl, List.map_reverse]
    have hne : Nat.digits 10 n ≠ [] := Nat.digits_ne_nil_iff_ne_zero.mpr hz
    have hmem : ∀ d ∈ (Nat.digits 10 n).reverse, d < 10 := by
      intro d hd
      exact Nat.digits_lt_base (by norm_num) (List.mem_reverse.mp hd)
    rw [hdig]
    rw [numCharsToNat?]
    rw [if_neg (by simpa [List.isEmpty_iff] using hne)]
    rw [digitsOfChars_map_digitChar _ hmem]
    simp [Nat.ofDigits_digits]

theorem natChars_digit : ∀ c ∈ natChars n, (charDigit c).isSome := by
  intro c hc
  by_cases hz : n = 0
  · subst hz
    simp only [natChars, if_pos, List.mem_singleton, reduceIte] at hc
    subst hc; decide
  · rw [natChars, if_neg hz, natCharsAux_eq_digits n n le_rfl] at hc
    rw [List.mem_reverse, List.mem_map] at hc
    obtain ⟨d, hd, rfl⟩ := hc
    rw [charDigit_digitChar (Nat.digits_lt_base (by norm_num) hd)]
    rfl

theorem natChars_ne_nil (n : Nat) : natChars n ≠ [] := by
  by_cases hz : n = 0
  · subst hz; decide
  · rw [natChars, if_neg hz, natCharsAux_eq_digits n n le_rfl]
    have hne : Nat.digits 10 n ≠ [] := Nat.digits_ne_nil_iff_ne_zero.mpr hz
    simpa using hne

theorem strToDate_isoOfTime (t : Int) : strToDate (isoOfTime t) = some t := by
  rw [strToDate, isoOfTime]
  by_cases ht : t < 0
  · rw [if_pos ht]
    show dateCharsToInt? ('-' :: natChars t.natAbs) = some t
    rw [dateCharsToInt?, if_pos rfl, numChars_natChars]
    show some (-(t.natAbs : Int)) = some t
    congr 1
    omega
  · rw [if_neg ht]
    show dateCharsToInt? (natChars t.toNat) = some t
    obtain ⟨c, rest, hcr⟩ : ∃ c rest, natChars t.toNat = c :: rest := by
      cases h : natChars t.toNat with
      | nil => exact absurd h (natChars_ne_nil _)
      | cons c rest => exact ⟨c, rest, rfl⟩
    have hcm : (charDigit c).isSome :=
      natChars_digit c (by rw [hcr]; exact List.mem_cons_self c rest)
    have hcne : c ≠ '-' := by
      intro hdash
      rw [hdash] at hcm
      exact absurd hcm (by decide)
    rw [hcr, dateCharsToInt?, if_neg hcne, ← hcr, numChars_natChars]
    show some ((t.toNat : Int)) = some t
    congr 1
    omega

theorem castPurchase_purchaseWire (un uid : String) (q : ℚ) (t : Int) :
    castPurchase (purchaseWire (.str un) (.str uid) q t) = some ⟨un, uid, q, t⟩ := by
  simp [castPurchase, purchaseWire, jlookup, List.find?, castString, castNumber, castDate,
    strToDate_isoOfTime]

theorem buy_status400_iff (now : Time) (sendOk : Bool) (b : ReqBody) :
    (buyHandler now sendOk b).1.status = 400 ↔ rejectsSubmission b = true := by
  unfold buyHandler rejectsSubmission
  cases h1 : (!(truthy b.username) || !(truthy b.userid) || b.price.isNone) with
  | true => simp [h1, BuyResult.status]
  | false =>
    cases h2 : toNumber b.price with
    | nan => simp [h1, h2, BuyResult.status]
    | num q =>
      by_cases h3 : q ≤ 0
      · simp [h1, h2, h3, BuyResult.status]
      · cases sendOk <;> simp [h1, h2, h3, BuyResult.status]

theorem buy_reject_iff (now : Time) (sendOk : Bool) (b : ReqBody) :
    ((buyHandler now sendOk b).1.status = 400 ∧ (buyHandler now sendOk b).2 = [])
      ↔ rejectsSubmission b = true := by
  unfold buyHandler rejectsSubmission
  cases h1 : (!(truthy b.username) || !(truthy b.userid) || b.price.isNone) with
  | true => simp [h1, BuyResult.status]
  | false =>
    cases h2 : toNumber b.price with
    | nan => simp [h1, h2, BuyResult.status]
    | num q =>
      by_cases h3 : q ≤ 0
      · simp [h1, h2, h3, BuyResult.status]
      · cases sendOk <;> simp [h1, h2, h3, BuyResult.status]

theorem direct_status400_iff (now : Time) (b : ReqBody) (store : List StoredPurchase) :
    (purchasesPost now b store).1.status = 400 ↔ rejectsSubmission b = true := by
  unfold purchasesPost rejectsSubmission
  cases h1 : (!(truthy b.username) || !(truthy b.userid) || b.price.isNone) with
  | true => simp [h1, DirectWriteResult.status]
  | false =>
    cases h2 : toNumber b.price with
    | nan => simp [h1, h2, DirectWriteResult.status]
    | num q =>
      by_cases h3 : q ≤ 0
      · simp [h1, h2, h3, DirectWriteResult.status]
      · cases hcu : castString (b.username.getD Json.null) with
        | none => simp [h1, h2, h3, hcu, DirectWriteResult.status]
        | some un =>
          cases hci : castString (b.userid.getD Json.null) with
          | none => simp [h1, h2, h3, hcu, hci, DirectWriteResult.status]
          | some uid =>
            cases hts : (if truthy b.timestamp then jsDate (b.timestamp.getD Json.null)
                else some now) with
            | none => simp [h1, h2, h3, hcu, hci, hts, DirectWriteResult.status]
            | some ts => simp [h1, h2, h3, hcu, hci, hts, DirectWriteResult.status]

theorem direct_reject_iff (now : Time) (b : ReqBody) (store : List StoredPurchase) :
    ((purchasesPost now b store).1.status = 400 ∧ (purchasesPost now b store).2 = store)
      ↔ rejectsSubmission b = true := by
  unfold purchasesPost rejectsSubmission
  cases h1 : (!(truthy b.username) || !(truthy b.userid) || b.price.isNone) with
  | true => simp [h1, DirectWriteResult.status]
  | false =>
    cases h2 : toNumber b.price with
    | nan => simp [h1, h2, DirectWriteResult.status]
    | num q =>
      by_cases h3 : q ≤ 0
      · simp [h1, h2, h3, DirectWriteResult.status]
      · cases hcu : castString (b.username.getD Json.null) with
        | none => simp [h1, h2, h3, hcu, DirectWriteResult.status]
        | some un =>
          cases hci : castString (b.userid.getD Json.null) with
          | none => simp [h1, h2, h3, hcu, hci, DirectWriteResult.status]
          | some uid =>
            cases hts : (if truthy b.timestamp then jsDate (b.timestamp.getD Json.null)
                else some now) with
            | none => simp [h1, h2, h3, hcu, hci, hts, DirectWriteResult.status]
            | some ts => simp [h1, h2, h3, hcu, hci, hts, DirectWriteResult.status]

theorem buy_accepts (now : Time) (b : ReqBody) (un uid : String) (q : ℚ)
    (hu : b.username = some (.str un)) (hu0 : un ≠ "")
    (hi : b.userid = some (.str uid)) (hi0 : uid ≠ "")
    (hp : b.price = some (.num q)) (hq : 0 < q) :
    buyHandler now true b =
      (.created (purchaseWire (.str un) (.str uid) q now),
       [⟨.str uid, purchaseWire (.str un) (.str uid) q now⟩]) := by
  unfold buyHandler
  rw [hu, hi, hp]
  simp [truthy, toNumber, not_le.mpr hq, hu0, hi0]

theorem direct_given_ts (now : Time) (b : ReqBody) (store : List StoredPurchase)
    (un uid : String) (q : ℚ) (v : Json) (ts : Time)
    (hu : b.username = some (.str un)) (hu0 : un ≠ "")
    (hi : b.userid = some (.str uid)) (hi0 : uid ≠ "")
    (hp : b.price = some (.num q)) (hq : 0 < q)
    (htv : b.timestamp = some v) (htt : truthy (some v) = true)
    (hts : jsDate v = some ts) :
    purchasesPost now b store =
      (.created ⟨un, uid, q, ts⟩, store ++ [⟨un, uid, q, ts⟩]) := by
  unfold purchasesPost
  rw [hu, hi, hp, htv]
  have hun : truthy (some (Json.str un)) = true := by simp [truthy, hu0]
  have huid : truthy (some (Json.str uid)) = true := by simp [truthy, hi0]
  simp [hun, huid, toNumber, not_le.mpr hq, htt, hts, castString]

theorem direct_default_ts (now : Time) (b : ReqBody) (store : List StoredPurchase)
    (un uid : String) (q : ℚ)
    (hu : b.username = some (.str un)) (hu0 : un ≠ "")
    (hi : b.userid = some (.str uid)) (hi0 : uid ≠ "")
    (hp : b.price = some (.num q)) (hq : 0 < q)
    (htf : truthy b.timestamp = false) :
    purchasesPost now b store =
      (.created ⟨un, uid, q, now⟩, store ++ [⟨un, uid, q, now⟩]) := by
  unfold purchasesPost
  rw [hu, hi, hp]
  have hun : truthy (some (Json.str un)) = true := by simp [truthy, hu0]
  have huid : truthy (some (Json.str uid)) = true := by simp [truthy, hi0]
  simp [hun, huid, toNumber, not_le.mpr hq, htf, castString]

theorem direct_bad_ts (now : Time) (b : ReqBody) (store : List StoredPurchase)
    (un uid : String) (q : ℚ) (v : Json)
    (hu : b.username = some (.str un)) (hu0 : un ≠ "")
    (hi : b.userid = some (.str uid)) (hi0 : uid ≠ "")
    (hp : b.price = some (.num q)) (hq : 0 < q)
    (htv : b.timestamp = some v) (htt : truthy (some v) = true)
    (hts : jsDate v = none) :
    purchasesPost now b store = (.serverError, store) := by
  unfold purchasesPost
  rw [hu, hi, hp, htv]
  have hun : truthy (some (Json.str un)) = true := by simp [truthy, hu0]
  have huid : truthy (some (Json.str uid)) = true := by simp [truthy, hi0]
  simp [hun, huid, toNumber, not_le.mpr hq, htt, hts, castString]

theorem sortDesc_perm (l : List StoredPurchase) : List.Perm (sortByTimestampDesc l) l :=
  List.mergeSort_perm l _

theorem sortDesc_pairwise (l : List StoredPurchase) :
    (sortByTimestampDesc l).Pairwise fun a b => b.timestamp ≤ a.timestamp := by
  have h := @List.sorted_mergeSort StoredPurchase
    (fun a b => decide (b.timestamp ≤ a.timestamp))
    (fun a b c hab hbc =>
      decide_eq_true (le_trans (of_decide_eq_true hbc) (of_decide_eq_true hab)))
    (fun a b => by
      cases le_total b.timestamp a.timestamp with
      | inl hcmp => simp [decide_eq_true hcmp]
      | inr hcmp => simp [decide_eq_true hcmp])
    l
  exact h.imp fun {a b} hab => of_decide_eq_true hab

theorem producerRun_flag : ∀ (tr : List ProducerEvent) (s : ProducerState),
    (producerRun s tr).kafkaReady = true →
      s.kafkaReady = true ∨ ProducerEvent.connectOk ∈ tr := by
  intro tr
  induction tr with
  | nil => exact fun s h => Or.inl h
  | cons e es ih =>
    intro s h
    cases e with
    | connectOk => exact Or.inr (List.mem_cons_self _ _)
    | connectFail =>
      rcases ih _ h with h' | h'
      · exact absurd h' (by simp [producerStep])
      · exact Or.inr (List.mem_cons_of_mem _ h')
    | connectionLost =>
      rcases ih _ h with h' | h'
      · exact Or.inl h'
      · exact Or.inr (List.mem_cons_of_mem _ h')

theorem consumerRun_kafka : ∀ (tr : List ConsumerEvent) (s : ConsumerState),
    (consumerRun s tr).kafkaReady = true →
      s.kafkaReady = true ∨ ConsumerEvent.kafkaOk ∈ tr := by
  intro tr
  induction tr with
  | nil => exact fun s h => Or.inl h
  | cons e es ih =>
    intro s h
    cases e with
    | kafkaOk => exact Or.inr (List.mem_cons_self _ _)
    | kafkaFail =>
      rcases ih _ h with h' | h'
      · exact absurd h' (by simp [consumerStep])
      · exact Or.inr (List.mem_cons_of_mem _ h')
    | mongoOk =>
      rcases ih _ h with h' | h'
      · exact Or.inl h'
      · exact Or.inr (List.mem_cons_of_mem _ h')
    | mongoFail =>
      rcases ih _ h with h' | h'
      · exact Or.inl h'
      · exact Or.inr (List.mem_cons_of_mem _ h')
    | connectionLost =>
      rcases ih _ h with h' | h'
      · exact Or.inl h'
      · exact Or.inr (List.mem_cons_of_mem _ h')

theorem consumerRun_mongo : ∀ (tr : List ConsumerEvent) (s : ConsumerState),
    (consumerRun s tr).mongoReady = true →
      s.mongoReady = true ∨ ConsumerEvent.mongoOk ∈ tr := by
  intro tr
  induction tr with
  | nil => exact fun s h => Or.inl h
  | cons e es ih =>
    intro s h
    cases e with
    | mongoOk => exact Or.inr (List.mem_cons_self _ _)
    | mongoFail =>
      rcases ih _ h with h' | h'
      · exact absurd h' (by simp [consumerStep])
      · exact Or.inr (List.mem_cons_of_mem _ h')
    | kafkaOk =>
      rcases ih _ h with h' | h'
      · exact Or.inl h'
      · exact Or.inr (List.mem_cons_of_mem _ h')
    | kafkaFail =>
      rcases ih _ h with h' | h'
      · exact Or.inl h'
      · exact Or.inr (List.mem_cons_of_mem _ h')
    | connectionLost =>
      rcases ih _ h with h' | h'
      · exact Or.inl h'
      · exact Or.inr (List.mem_cons_of_mem _ h')

/-- Claim C1, counterexample: the claim says a string `price` is rejected with
400, but the code coerces with `Number(price)`, so the numeric string `"5"` is
accepted: the response is 201 and a message is published. -/
theorem c1_counterexample :
    (buyHandler 0 true ⟨some (.str "alice"), some (.str "u1"), some (.str "5"), none⟩).1.status
      = 201
    ∧ (buyHandler 0 true
        ⟨some (.str "alice"), some (.str "u1"), some (.str "5"), none⟩).2.length = 1 := by
  constructor <;> decide

/-- Claim C1, amended: both the producer's `POST /buy` and the direct-write
`POST /purchases` reject with 400 — publishing no message and storing no
document — exactly when `username` or `userid` is missing or falsy, `price` is
missing, or `Number(price)` is NaN or `≤ 0`; numeric strings for `price` are
coerced and accepted. -/
theorem c1_validation_amended (now : Time) (sendOk : Bool) (b : ReqBody)
    (store : List StoredPurchase) :
    (((buyHandler now sendOk b).1.status = 400 ∧ (buyHandler now sendOk b).2 = [])
      ↔ rejectsSubmission b = true)
    ∧ (((purchasesPost now b store).1.status = 400
        ∧ (purchasesPost now b store).2 = store)
      ↔ rejectsSubmission b = true) :=
  ⟨buy_reject_iff now sendOk b, direct_reject_iff now b store⟩

/-- Claim C1, witness: a request with `price` absent is rejected with 400 and
publishes nothing. -/
theorem c1_validation_witness :
    (buyHandler 0 true ⟨some (.str "a"), some (.str "b"), none, none⟩).1.status = 400
    ∧ (buyHandler 0 true ⟨some (.str "a"), some (.str "b"), none, none⟩).2 = [] :=
  (c1_validation_amended 0 true ⟨some (.str "a"), some (.str "b"), none, none⟩ []).1.mpr
    (by decide)

/-- Claim C2: for every received message, the subscription handler is a total
function (it always returns normally, so the offset advances and the process
does not crash); a payload on which `JSON.parse` throws, or which fails the
schema cast, is dropped with the store unchanged, and a payload that parses
as a Purchase is appended to the store as a new document (when the insert
itself succeeds, `saveOk = true`). -/
theorem c2_consume_policy (saveOk : Bool) (v : MsgValue) (store : List StoredPurchase) :
    (∀ s, v = .junk s → eachMessage saveOk v store = ⟨store, .dropped⟩)
    ∧ (∀ j, v = .json j → castPurchase j = none →
        eachMessage saveOk v store = ⟨store, .dropped⟩)
    ∧ (∀ j p, v = .json j → castPurchase j = some p → saveOk = true →
        eachMessage saveOk v store = ⟨store ++ [p], .stored⟩)
    ∧ (v = .absent → eachMessage saveOk v store = ⟨store, .skippedNull⟩) := by
  refine ⟨?_, ?_, ?_, ?_⟩
  · rintro s rfl; rfl
  · rintro j rfl hc; simp [eachMessage, hc]
  · rintro j p rfl hc rfl; simp [eachMessage, hc]
  · rintro rfl; rfl

/-- Claim C2, witness: a non-JSON payload is dropped with the store unchanged,
and a well-formed purchase payload is stored. -/
theorem c2_consume_witness :
    eachMessage true (.junk "not json") [] = ⟨[], .dropped⟩
    ∧ eachMessage true (.json (purchaseWire (.str "demo") (.str "u1") 1 0)) []
        = ⟨[⟨"demo", "u1", 1, 0⟩], .stored⟩ :=
  ⟨(c2_consume_policy true (.junk "not json") []).1 "not json" rfl,
   (c2_consume_policy true (.json (purchaseWire (.str "demo") (.str "u1") 1 0)) []).2.2.1
     (purchaseWire (.str "demo") (.str "u1") 1 0) ⟨"demo", "u1", 1, 0⟩ rfl (by decide) rfl⟩

/-- Claim C7: `GET /getAllUserBuys/:userid` delegates to the consumer's
`/purchases/:userid` under a bounded 5000 ms timeout; a downstream failure
(timeout, network error, non-2xx) yields 500; a successful downstream call is
forwarded unchanged with 200 — in particular, forwarding the consumer's own
per-user query verbatim. -/
theorem c7_proxy_delegation (uid : String) (l : List StoredPurchase)
    (store : List StoredPurchase) :
    (getAllUserBuysCall uid).timeoutMs = 5000
    ∧ (getAllUserBuysCall uid).path = "/purchases/" ++ uid
    ∧ getAllUserBuysRoute (.error ()) = .downstreamError
    ∧ ProxyResult.downstreamError.status = 500
    ∧ getAllUserBuysRoute (.ok l) = .ok l
    ∧ (ProxyResult.ok l).status = 200
    ∧ getAllUserBuysRoute (.ok (getPurchasesByUser uid store))
        = .ok (getPurchasesByUser uid store) :=
  ⟨rfl, rfl, rfl, rfl, rfl, rfl, rfl⟩

/-- Claim C9: a failed store insert is handled exactly like a decode failure —
the single `catch` logs it, the handler returns normally (offset advances),
and the purchase is neither stored nor retried. -/
theorem c9_insert_failure_dropped (j : Json) (p : StoredPurchase)
    (store : List StoredPurchase) (h : castPurchase j = some p) :
    eachMessage false (.json j) store = ⟨store, .dropped⟩
    ∧ (∀ s, eachMessage false (.junk s) store = ⟨store, .dropped⟩) := by
  constructor
  · simp [eachMessage, h]
  · intro s; rfl

/-- Claim C9, witness: a well-formed purchase message received during a store
outage is dropped with the store unchanged. -/
theorem c9_insert_failure_witness :
    eachMessage false (.json (purchaseWire (.str "a") (.str "u2") 2 1)) [] = ⟨[], .dropped⟩ :=
  (c9_insert_failure_dropped (purchaseWire (.str "a") (.str "u2") 2 1)
    ⟨"a", "u2", 2, 1⟩ [] (by decide)).1

/-- Claim C3: with the store reachable, `GET /purchases` returns at most 500
documents — exactly `min 500 n` of the `n` stored — ordered by timestamp
descending, drawn from the store, such that any document not fully included
is no newer than every returned one (the 500 most recent); with 501 or more
documents stored it returns exactly 500 items, with HTTP 200. -/
theorem c3_recency_cap (store : List StoredPurchase) :
    (getAllPurchases store).length = min 500 store.length
    ∧ List.Pairwise (fun a b => b.timestamp ≤ a.timestamp) (getAllPurchases store)
    ∧ List.Subperm (getAllPurchases store) store
    ∧ (∀ d ∈ store, (getAllPurchases store).count d < store.count d →
        ∀ a ∈ getAllPurchases store, d.timestamp ≤ a.timestamp)
    ∧ (501 ≤ store.length → (getAllPurchases store).length = 500)
    ∧ purchasesAllRoute true store = .ok (getAllPurchases store)
    ∧ (purchasesAllRoute true store).status = 200 := by
  have hperm := sortDesc_perm store
  have hpair := sortDesc_pairwise store
  have hlen : (getAllPurchases store).length = min 500 store.length := by
    show ((sortByTimestampDesc store).take 500).length = _
    rw [List.length_take, hperm.length_eq]
  refine ⟨hlen, ?_, ?_, ?_, ?_, rfl, rfl⟩
  · exact List.Pairwise.sublist (List.take_sublist 500 _) hpair
  · exact (List.take_sublist 500 _).subperm.trans hperm.subperm
  · intro d hd hcnt a ha
    have hsplit := List.take_append_drop 500 (sortByTimestampDesc store)
    have hcc : ((sortByTimestampDesc store).take 500).count d
        + ((sortByTimestampDesc store).drop 500).count d
        = (sortByTimestampDesc store).count d := by
      rw [← List.count_append, hsplit]
    have hsc : (sortByTimestampDesc store).count d = store.count d := hperm.count_eq d
    have hmem : d ∈ (sortByTimestampDesc store).drop 500 := by
      have hpos : 0 < ((sortByTimestampDesc store).drop 500).count d := by
        have : (getAllPurchases store).count d
            = ((sortByTimestampDesc store).take 500).count d := rfl
        omega
      exact List.count_pos_iff.mp hpos
    have hp2 : List.Pairwise (fun a b => b.timestamp ≤ a.timestamp)
        ((sortByTimestampDesc store).take 500 ++ (sortByTimestampDesc store).drop 500) := by
      rw [hsplit]; exact hpair
    exact (List.pairwise_append.mp hp2).2.2 a ha d hmem
  · intro h5; omega

/-- Claim C3, witness: with 501 copies of a document stored, `GET /purchases`
returns exactly 500 items. -/
theorem c3_recency_witness :
    (getAllPurchases (List.replicate 501 (⟨"a", "u", 1, 0⟩ : StoredPurchase))).length = 500 :=
  (c3_recency_cap (List.replicate 501 ⟨"a", "u", 1, 0⟩)).2.2.2.2.1
    (by rw [List.length_replicate])

/-- Claim C4: with the store reachable, `GET /purchases/:userid` returns
exactly the stored documents whose `userid` equals the parameter (as a
permutation of the filtered store), ordered by timestamp descending, and when
nothing matches it returns the empty array with HTTP 200 — never an error. -/
theorem c4_user_query (uid : String) (store : List StoredPurchase) :
    List.Perm (getPurchasesByUser uid store) (store.filter fun d => d.userid == uid)
    ∧ List.Pairwise (fun a b => b.timestamp ≤ a.timestamp) (getPurchasesByUser uid store)
    ∧ (∀ x ∈ getPurchasesByUser uid store, x.userid = uid)
    ∧ ((∀ x ∈ store, x.userid ≠ uid) → getPurchasesByUser uid store = [])
    ∧ purchasesByUserRoute true uid store = .ok (getPurchasesByUser uid store)
    ∧ (purchasesByUserRoute true uid store).status = 200 := by
  have hperm : List.Perm (getPurchasesByUser uid store)
      (store.filter fun d => d.userid == uid) := sortDesc_perm _
  refine ⟨hperm, sortDesc_pairwise _, ?_, ?_, rfl, rfl⟩
  · intro x hx
    have hxf := hperm.mem_iff.mp hx
    have hflt := List.mem_filter.mp hxf
    simpa using hflt.2
  · intro hnone
    have hf : store.filter (fun d => d.userid == uid) = [] := by
      rw [List.filter_eq_nil_iff]
      intro a ha
      simp [hnone a ha]
    show sortByTimestampDesc (store.filter fun d => d.userid == uid) = []
    rw [hf]
    simp [sortByTimestampDesc]

/-- Claim C4, witness: a `userid` with no purchases yields the empty array
from a 200 route. -/
theorem c4_user_query_witness :
    getPurchasesByUser "nobody" [⟨"x", "other", 1, 0⟩] = []
    ∧ (purchasesByUserRoute true "nobody" [⟨"x", "other", 1, 0⟩]).status = 200 :=
  ⟨(c4_user_query "nobody" [⟨"x", "other", 1, 0⟩]).2.2.2.1 (by decide),
   (c4_user_query "nobody" [⟨"x", "other", 1, 0⟩]).2.2.2.2.2⟩

/-- Claim C5: every submission accepted by `POST /buy` whose fields conform to
the data model (non-empty string `username`/`userid`, positive numeric
`price`) is published as a message that the consumer's handler parses back to
the same Purchase and stores with the same `username`, `userid` and `price`;
in particular, submitting `{username:"demo", userid:"u1", price:12.34}` on an
empty store and consuming the published message makes the per-user query for
`"u1"` return exactly one entry with price `12.34` and userid `"u1"`. -/
theorem c5_round_trip (now : Time) (store : List StoredPurchase) (b : ReqBody)
    (un uid : String) (q : ℚ)
    (hu : b.username = some (.str un)) (hu0 : un ≠ "")
    (hi : b.userid = some (.str uid)) (hi0 : uid ≠ "")
    (hp : b.price = some (.num q)) (hq : 0 < q) :
    (buyHandler now true b =
        (.created (purchaseWire (.str un) (.str uid) q now),
         [⟨.str uid, purchaseWire (.str un) (.str uid) q now⟩])
      ∧ eachMessage true (.json (purchaseWire (.str un) (.str uid) q now)) store
          = ⟨store ++ [⟨un, uid, q, now⟩], .stored⟩)
    ∧ (∀ t : Time,
        buyHandler t true
            ⟨some (.str "demo"), some (.str "u1"), some (.num (12.34 : ℚ)), none⟩
          = (.created (purchaseWire (.str "demo") (.str "u1") (12.34 : ℚ) t),
             [⟨.str "u1", purchaseWire (.str "demo") (.str "u1") (12.34 : ℚ) t⟩])
        ∧ getPurchasesByUser "u1"
            (eachMessage true
              (.json (purchaseWire (.str "demo") (.str "u1") (12.34 : ℚ) t)) []).store
          = [⟨"demo", "u1", (12.34 : ℚ), t⟩]) := by
  constructor
  · exact ⟨buy_accepts now b un uid q hu hu0 hi hi0 hp hq,
      by simp [eachMessage, castPurchase_purchaseWire]⟩
  · intro t
    constructor
    · exact buy_accepts t _ "demo" "u1" (12.34 : ℚ) rfl (by decide) rfl (by decide) rfl
        (by norm_num)
    · simp only [eachMessage, castPurchase_purchaseWire, List.nil_append]
      show getPurchasesByUser "u1" [⟨"demo", "u1", (12.34 : ℚ), t⟩] = _
      simp [getPurchasesByUser, sortByTimestampDesc]

/-- Claim C5, witness: the demo round trip at server time 0. -/
theorem c5_round_trip_witness :
    buyHandler 0 true ⟨some (.str "demo"), some (.str "u1"), some (.num (12.34 : ℚ)), none⟩
      = (.created (purchaseWire (.str "demo") (.str "u1") (12.34 : ℚ) 0),
         [⟨.str "u1", purchaseWire (.str "demo") (.str "u1") (12.34 : ℚ) 0⟩])
    ∧ getPurchasesByUser "u1"
        (eachMessage true
          (.json (purchaseWire (.str "demo") (.str "u1") (12.34 : ℚ) 0)) []).store
      = [⟨"demo", "u1", (12.34 : ℚ), 0⟩] :=
  (c5_round_trip 0 []
    ⟨some (.str "demo"), some (.str "u1"), some (.num (12.34 : ℚ)), none⟩
    "demo" "u1" (12.34 : ℚ) rfl (by decide) rfl (by decide) rfl (by norm_num)).2 0

/-- Claim C6, counterexample: the claim says readiness reverts to not-ready
when an established stream connection is lost, but the code registers no
disconnect handler, so after connect-then-loss the connection is no longer
established yet `GET /ready` still returns 200. -/
theorem c6_counterexample :
    readyEndpoint (producerRun producerInit
        [ProducerEvent.connectOk, ProducerEvent.connectionLost]) = 200
    ∧ streamEstablished [ProducerEvent.connectOk, ProducerEvent.connectionLost] = false := by
  constructor <;> rfl

/-- Claim C6, amended: `GET /ready` returns 200 exactly when the `kafkaReady`
flag is set; the flag is set only by a successful connect (so readiness is
reported only once the connection has been established at least once), and the
consumer reports readiness only once both its store and stream connections
have succeeded; a failed connection attempt schedules a retry after the fixed
5000 ms backoff and never exits the process; but a dependency lost after
establishment is not observed — the state, and hence readiness, is unchanged. -/
theorem c6_readiness_amended :
    (∀ s : ProducerState, readyEndpoint s = 200 ↔ s.kafkaReady = true)
    ∧ (∀ tr, (producerRun producerInit tr).kafkaReady = true →
        ProducerEvent.connectOk ∈ tr)
    ∧ (∀ tr, consumerReadiness (consumerRun consumerInit tr) = true →
        ConsumerEvent.kafkaOk ∈ tr ∧ ConsumerEvent.mongoOk ∈ tr)
    ∧ (∀ s, producerStep s .connectFail = (⟨false⟩, some retryDelayMs))
    ∧ retryDelayMs = 5000
    ∧ (∀ s, producerStep s .connectionLost = (s, none))
    ∧ (∀ s, consumerStep s .connectionLost = (s, none)) := by
  refine ⟨?_, ?_, ?_, fun s => rfl, rfl, fun s => rfl, fun s => rfl⟩
  · intro s
    cases hs : s.kafkaReady <;> simp [readyEndpoint, hs]
  · intro tr h
    rcases producerRun_flag tr producerInit h with h' | h'
    · exact absurd h' (by decide)
    · exact h'
  · intro tr h
    have hb := Bool.and_eq_true_iff.mp h
    constructor
    · rcases consumerRun_kafka tr consumerInit hb.1 with h' | h'
      · exact absurd h' (by decide)
      · exact h'
    · rcases consumerRun_mongo tr consumerInit hb.2 with h' | h'
      · exact absurd h' (by decide)
      · exact h'

/-- Claim C6, witness: after one successful connect, the producer's flag is
set and that trace indeed contains a successful connect event. -/
theorem c6_readiness_witness :
    ProducerEvent.connectOk ∈ [ProducerEvent.connectOk]
    ∧ (ConsumerEvent.kafkaOk ∈ [ConsumerEvent.kafkaOk, ConsumerEvent.mongoOk]
        ∧ ConsumerEvent.mongoOk ∈ [ConsumerEvent.kafkaOk, ConsumerEvent.mongoOk]) :=
  ⟨c6_readiness_amended.2.1 [ProducerEvent.connectOk] (by decide),
   c6_readiness_amended.2.2.1 [ConsumerEvent.kafkaOk, ConsumerEvent.mongoOk] (by decide)⟩

/-- Claim C8, counterexample: a caller-supplied `timestamp` that is present but
falsy (the number 0, i.e. the epoch) is not used: `timestamp ? … : new Date()`
silently replaces it with the current time (5 here), contradicting "stores the
purchase with the caller-supplied timestamp when one is given". -/
theorem c8_counterexample :
    purchasesPost 5 ⟨some (.str "a"), some (.str "b"), some (.num 1), some (.num 0)⟩ []
      = (.created ⟨"a", "b", 1, 5⟩, [⟨"a", "b", 1, 5⟩])
    ∧ (5 : Time) ≠ 0 := by
  constructor <;> decide

/-- Claim C8, amended: the direct-write `POST /purchases` applies exactly the
same validation as the producer's `POST /buy`; it stores the purchase with the
caller-supplied timestamp when one is given, truthy and parseable as a date,
with the current time when the timestamp is absent or falsy, and answers 500
storing nothing when it is given and truthy but unparseable; on success the
stored document is returned with status 201. -/
theorem c8_direct_write_amended :
    (∀ (now : Time) (b : ReqBody) (store : List StoredPurchase),
      (purchasesPost now b store).1.status = 400 ↔ (buyHandler now true b).1.status = 400)
    ∧ (∀ (now : Time) (b : ReqBody) (store : List StoredPurchase)
        (un uid : String) (q : ℚ) (v : Json) (ts : Time),
        b.username = some (.str un) → un ≠ "" →
        b.userid = some (.str uid) → uid ≠ "" →
        b.price = some (.num q) → 0 < q →
        b.timestamp = some v → truthy (some v) = true → jsDate v = some ts →
        purchasesPost now b store
          = (.created ⟨un, uid, q, ts⟩, store ++ [⟨un, uid, q, ts⟩]))
    ∧ (∀ (now : Time) (b : ReqBody) (store : List StoredPurchase)
        (un uid : String) (q : ℚ),
        b.username = some (.str un) → un ≠ "" →
        b.userid = some (.str uid) → uid ≠ "" →
        b.price = some (.num q) → 0 < q →
        truthy b.timestamp = false →
        purchasesPost now b store
          = (.created ⟨un, uid, q, now⟩, store ++ [⟨un, uid, q, now⟩]))
    ∧ (∀ (now : Time) (b : ReqBody) (store : List StoredPurchase)
        (un uid : String) (q : ℚ) (v : Json),
        b.username = some (.str un) → un ≠ "" →
        b.userid = some (.str uid) → uid ≠ "" →
        b.price = some (.num q) → 0 < q →
        b.timestamp = some v → truthy (some v) = true → jsDate v = none →
        purchasesPost now b store = (.serverError, store))
    ∧ (∀ d : StoredPurchase, (DirectWriteResult.created d).status = 201) :=
  ⟨fun now b store => (direct_status400_iff now b store).trans
      (buy_status400_iff now true b).symm,
   fun now b store un uid q v ts hu hu0 hi hi0 hp hq htv htt hts =>
     direct_given_ts now b store un uid q v ts hu hu0 hi hi0 hp hq htv htt hts,
   fun now b store un uid q hu hu0 hi hi0 hp hq htf =>
     direct_default_ts now b store un uid q hu hu0 hi hi0 hp hq htf,
   fun now b store un uid q v hu hu0 hi hi0 hp hq htv htt hts =>
     direct_bad_ts now b store un uid q v hu hu0 hi hi0 hp hq htv htt hts,
   fun _ => rfl⟩

/-- Claim C8, witness: a truthy, parseable caller-supplied timestamp (the
textual instant for 99) is stored as given, even though the server clock is
0. -/
theorem c8_direct_write_witness :
    purchasesPost 0
        ⟨some (.str "a"), some (.str "b"), some (.num 2), some (.str (isoOfTime 99))⟩ []
      = (.created ⟨"a", "b", 2, 99⟩, [⟨"a", "b", 2, 99⟩]) :=
  c8_direct_write_amended.2.1 0
    ⟨some (.str "a"), some (.str "b"), some (.num 2), some (.str (isoOfTime 99))⟩ []
    "a" "b" 2 (.str (isoOfTime 99)) 99
    rfl (by decide) rfl (by decide) rfl (by norm_num) rfl (by decide) (by decide)

/-- Claim C10: on the direct-write `POST /purchases` the optional `timestamp`
is never validated: for an otherwise-valid request whose timestamp is present
and truthy but unparseable as a date, the store insert fails and the response
is 500 (not a 400 validation error) with nothing stored; and a present-but-
falsy timestamp (empty string, 0, `false`, `null`) is silently replaced by the
current time instead of being used or rejected. -/
theorem c10_timestamp_unvalidated (now : Time) (b : ReqBody)
    (store : List StoredPurchase) (un uid : String) (q : ℚ) (v : Json)
    (hu : b.username = some (.str un)) (hu0 : un ≠ "")
    (hi : b.userid = some (.str uid)) (hi0 : uid ≠ "")
    (hp : b.price = some (.num q)) (hq : 0 < q)
    (htv : b.timestamp = some v) :
    (truthy (some v) = true → jsDate v = none →
      purchasesPost now b store = (.serverError, store)
      ∧ (purchasesPost now b store).1.status = 500
      ∧ (purchasesPost now b store).1.status ≠ 400)
    ∧ (truthy (some v) = false →
      purchasesPost now b store
        = (.created ⟨un, uid, q, now⟩, store ++ [⟨un, uid, q, now⟩])) := by
  constructor
  · intro htt hts
    have h := direct_bad_ts now b store un uid q v hu hu0 hi hi0 hp hq htv htt hts
    refine ⟨h, by rw [h]; rfl, by rw [h]; simp [DirectWriteResult.status]⟩
  · intro htf
    have htf' : truthy b.timestamp = false := by rw [htv]; exact htf
    exact direct_default_ts now b store un uid q hu hu0 hi hi0 hp hq htf'

/-- Claim C10, witness: timestamp `"not-a-date"` yields 500 with nothing
stored; timestamp `""` (present but falsy) is replaced by the server clock
7. -/
theorem c10_timestamp_witness :
    purchasesPost 7
        ⟨some (.str "a"), some (.str "b"), some (.num 2), some (.str "not-a-date")⟩ []
      = (.serverError, [])
    ∧ purchasesPost 7
        ⟨some (.str "a"), some (.str "b"), some (.num 2), some (.str "")⟩ []
      = (.created ⟨"a", "b", 2, 7⟩, [⟨"a", "b", 2, 7⟩]) :=
  ⟨((c10_timestamp_unvalidated 7
      ⟨some (.str "a"), some (.str "b"), some (.num 2), some (.str "not-a-date")⟩ []
      "a" "b" 2 (.str "not-a-date")
      rfl (by decide) rfl (by decide) rfl (by norm_num) rfl).1 (by decide) (by decide)).1,
   (c10_timestamp_unvalidated 7
      ⟨some (.str "a"), some (.str "b"), some (.num 2), some (.str "")⟩ []
      "a" "b" 2 (.str "")
      rfl (by decide) rfl (by decide) rfl (by norm_num) rfl).2 (by decide)⟩
